import Mathlib

/-!
# WhisperKey JNI binding, shallow embedding

A shallow embedding of `app/src/main/cpp/jni.c`, the JNI binding layer of
WhisperKey.  The binding exposes five native entry points
(`nativeInit`, `nativeRelease`, `nativeTranscribe`, `nativeIsLoaded`,
`nativeGetSystemInfo`) over the external whisper.cpp inference engine.

The engine itself is not part of this repository's sources; its observable
behaviour during one call (the status code of `whisper_full`, the emitted
segment texts, the outcome of `malloc`, the static system-info string) is
supplied as an oracle record.  JNI buffer borrowing and engine invocations
are recorded in an event trace so that resource balance and call-shape
properties can be stated.
-/

namespace WhisperKey

/-- ASCII space, code 0x20 (the C literal for the space character). -/
def spaceChar : Char := Char.ofNat 32

/-- ASCII line feed, code 0x0A (the C literal written with a backslash-n). -/
def newlineChar : Char := Char.ofNat 10

/-- ASCII horizontal tab, code 0x09 (the C literal written with a backslash-t). -/
def tabChar : Char := Char.ofNat 9

/-- A C string without its terminating NUL: C strings cannot contain an
interior NUL, so a list of characters models the bytes `strlen`/`strcat`
see. -/
abbrev CStr := List Char

/-- A non-null native pointer cast to `jlong`: in C a valid object pointer
is never the null pointer, so its integer image is non-zero. -/
abbrev Ptr := { p : Int // p ≠ 0 }

/-- The sampling strategies of `whisper.h` (`WHISPER_SAMPLING_GREEDY`,
`WHISPER_SAMPLING_BEAM_SEARCH`). -/
inductive WhisperSamplingStrategy : Type
  | greedy
  | beamSearch
  deriving DecidableEq, Repr

/-- The fields of `struct whisper_full_params` that `nativeTranscribe`
assigns, plus the sampling strategy chosen at `whisper_full_default_params`.
The remaining engine-default fields are never touched by the binding and no
claim concerns them, so they are not modelled. -/
structure WhisperFullParams : Type where
  strategy : WhisperSamplingStrategy
  print_realtime : Bool
  print_progress : Bool
  print_timestamps : Bool
  print_special : Bool
  translate : Bool
  language : String
  n_threads : Int
  offset_ms : Int
  no_context : Bool
  single_segment : Bool
  suppress_blank : Bool
  suppress_nst : Bool
  deriving DecidableEq, Repr

/-- Modelled from the spec: `whisper_full_default_params(strategy)` lives in
the external engine, not in this repository; it returns the engine's default
record for the requested sampling strategy.  The concrete default field
values are external, so they are passed in as `defaults`; only the strategy
selection is forced by the argument. -/
def whisperFullDefaultParams (strategy : WhisperSamplingStrategy)
    (defaults : WhisperFullParams) : WhisperFullParams :=
  { defaults with strategy := strategy }

/-- The parameter record `nativeTranscribe` builds (jni.c lines 81 to 93):
engine defaults for greedy sampling, then the twelve field assignments of
the source, with `num_threads` the only caller-controlled value. -/
def transcribeParams (defaults : WhisperFullParams) (numThreads : Int) :
    WhisperFullParams :=
  let params := whisperFullDefaultParams WhisperSamplingStrategy.greedy defaults
  { params with
    print_realtime := false
    print_progress := false
    print_timestamps := false
    print_special := false
    translate := false
    language := "en"
    n_threads := numThreads
    offset_ms := 0
    no_context := true
    single_segment := true
    suppress_blank := true
    suppress_nst := true }

/-- What the external engine and allocator do during one
`nativeTranscribe` call: the return status of `whisper_full`, the text
`whisper_full_get_segment_text` yields for each of the
`whisper_full_n_segments` indices (`none` models a NULL pointer), and
whether the `malloc` of the concatenation buffer succeeds. -/
structure TranscribeOracle : Type where
  fullStatus : Int
  segTexts : List (Option CStr)
  allocOk : Bool
  deriving DecidableEq, Repr

/-- First pass of the source (jni.c lines 111 to 117): sum the `strlen` of
every non-NULL segment text into `total_len`. -/
def totalLen (segs : List (Option CStr)) : Nat :=
  segs.foldl
    (fun acc t =>
      match t with
      | none => acc
      | some s => acc + s.length)
    0

/-- Second pass of the source (jni.c lines 125 to 132): starting from the
empty buffer, `strcat` every non-NULL segment text in index order. -/
def concatSegs (segs : List (Option CStr)) : CStr :=
  segs.foldl
    (fun acc t =>
      match t with
      | none => acc
      | some s => acc ++ s)
    []

/-- The trim loop of the source (jni.c lines 135 to 138): advance the
pointer while it reads a space, newline or tab; a C string's terminating
NUL is none of the three, so the loop also stops at the end of the
buffer, which the empty list models. -/
def trimLead : CStr → CStr
  | [] => []
  | c :: cs =>
      if c = spaceChar ∨ c = newlineChar ∨ c = tabChar then trimLead cs
      else c :: cs

/-- Spec-side description of one leading character the trim strips: a
space, newline, or tab. -/
def isLeadWs (c : Char) : Bool :=
  c == spaceChar || c == newlineChar || c == tabChar

/-- Spec-side concatenation: the segment texts joined in order with no
separator, a NULL text contributing the empty string. -/
def joinTexts (segs : List (Option CStr)) : CStr :=
  (segs.map (fun t => t.getD [])).flatten

/-- The observable events of one binding call: JNI borrow/release pairs,
the heap buffer, and the engine invocations.  `α` is the element type of
the borrowed `jfloatArray` (the binding never inspects the samples). -/
inductive JEvent (α : Type) : Type
  | getStringUTFChars
  | releaseStringUTFChars
  | getFloatArrayElements
  | releaseFloatArrayElements
  | mallocBuf (size : Nat)
  | freeBuf
  | resetTimings
  | whisperFull (params : WhisperFullParams) (samples : List α) (len : Nat)
  deriving DecidableEq, Repr

/-- The three resources a call can hold: the borrowed UTF characters of the
model path, the borrowed float array elements, and the heap concatenation
buffer. -/
inductive Res : Type
  | strChars
  | floatElems
  | heapBuf
  deriving DecidableEq, Repr

/-- Drop the first occurrence of `r` (releasing one acquisition). -/
def releaseRes (r : Res) : List Res → List Res
  | [] => []
  | x :: xs => if x = r then xs else x :: releaseRes r xs

/-- How one event changes the set of outstanding acquisitions. -/
def evStep {α : Type} (held : List Res) : JEvent α → List Res
  | JEvent.getStringUTFChars => Res.strChars :: held
  | JEvent.releaseStringUTFChars => releaseRes Res.strChars held
  | JEvent.getFloatArrayElements => Res.floatElems :: held
  | JEvent.releaseFloatArrayElements => releaseRes Res.floatElems held
  | JEvent.mallocBuf _ => Res.heapBuf :: held
  | JEvent.freeBuf => releaseRes Res.heapBuf held
  | JEvent.resetTimings => held
  | JEvent.whisperFull _ _ _ => held

/-- The acquisitions still outstanding after a trace, starting from none. -/
def outstanding {α : Type} (tr : List (JEvent α)) : List Res :=
  tr.foldl evStep []

/-- Whether an event is a call into the engine's inference machinery. -/
def isEngineEvent {α : Type} : JEvent α → Bool
  | JEvent.resetTimings => true
  | JEvent.whisperFull _ _ _ => true
  | _ => false

/-- The engine invocations of a trace, in order. -/
def engineEvents {α : Type} (tr : List (JEvent α)) : List (JEvent α) :=
  tr.filter isEngineEvent

/-- `Java_com_whisperkey_WhisperEngine_nativeInit` (jni.c lines 15 to 37):
borrow the UTF characters of the model path, ask the engine to load the
model (`loaded` is the engine's outcome: `none` models a NULL context,
`some p` a live context at non-null pointer `p`), release the characters,
then return `0` on failure and the pointer cast to `jlong` on success.
The returned trace records the borrow/release events. -/
def nativeInit (loaded : Option Ptr) (modelPath : String) :
    Int × List (JEvent Unit) :=
  let tr : List (JEvent Unit) :=
    [JEvent.getStringUTFChars, JEvent.releaseStringUTFChars]
  match loaded with
  | none => (0, tr)
  | some p => (p.val, tr)

/-- `Java_com_whisperkey_WhisperEngine_nativeRelease` (jni.c lines 40 to
55): a null handle is a no-op; otherwise `whisper_free` destroys the
engine instance, which the model renders as erasing the handle from the
set of live contexts. -/
def nativeRelease (live : Finset Int) (contextPtr : Int) : Finset Int :=
  if contextPtr = 0 then live
  else live.erase contextPtr

/-- `Java_com_whisperkey_WhisperEngine_nativeTranscribe` (jni.c lines 58 to
145): a null context returns the empty string at once; otherwise the call
borrows the float array, builds the fixed parameter record, resets the
engine timings, runs `whisper_full` once over the whole buffer, releases
the array, and then either returns the empty string (non-zero status or
failed `malloc`) or the concatenation of the segment texts with its
leading whitespace trimmed. -/
def nativeTranscribe {α : Type} (defaults : WhisperFullParams)
    (o : TranscribeOracle) (contextPtr : Int) (audioData : List α)
    (numThreads : Int) : String × List (JEvent α) :=
  if contextPtr = 0 then
    ("", [])
  else
    let preTrace : List (JEvent α) :=
      [JEvent.getFloatArrayElements, JEvent.resetTimings,
       JEvent.whisperFull (transcribeParams defaults numThreads) audioData
         audioData.length,
       JEvent.releaseFloatArrayElements]
    if o.fullStatus ≠ 0 then
      ("", preTrace)
    else if o.allocOk then
      (String.mk (trimLead (concatSegs o.segTexts)),
       preTrace ++ [JEvent.mallocBuf (totalLen o.segTexts + 1), JEvent.freeBuf])
    else
      ("", preTrace)

/-- `Java_com_whisperkey_WhisperEngine_nativeIsLoaded` (jni.c lines 148 to
157): the C conditional `context_ptr != 0 ? JNI_TRUE : JNI_FALSE`.  The
function reads nothing but its argument. -/
def nativeIsLoaded (contextPtr : Int) : Bool :=
  if contextPtr ≠ 0 then true else false

/-- Modelled from the spec: the external engine's static system-info
string.  `whisper_print_system_info` is not part of this repository's
sources; per the spec it returns a static diagnostic string describing
build/SIMD capabilities, which is in particular non-empty. -/
structure EngineSystemInfo : Type where
  text : CStr
  text_ne_nil : text ≠ []

/-- `Java_com_whisperkey_WhisperEngine_nativeGetSystemInfo` (jni.c lines
160 to 168): pass the engine's static string through `NewStringUTF`
unmodified. -/
def nativeGetSystemInfo (info : EngineSystemInfo) : String :=
  String.mk info.text

/-- An engine-default parameter record whose field values all differ from
the ones `nativeTranscribe` assigns, used to instantiate oracles in
concrete evaluations. -/
def arbitraryDefaults : WhisperFullParams :=
  { strategy := WhisperSamplingStrategy.beamSearch
    print_realtime := true
    print_progress := true
    print_timestamps := true
    print_special := true
    translate := true
    language := "auto"
    n_threads := 4
    offset_ms := 7
    no_context := false
    single_segment := false
    suppress_blank := false
    suppress_nst := false }

/-- A concrete successful engine run: status 0, two segment texts with
leading and trailing whitespace, allocation succeeding. -/
def sampleOracle : TranscribeOracle :=
  { fullStatus := 0
    segTexts := [some (" he".data), some ("llo ".data)]
    allocOk := true }

/-- A concrete failing engine run: `whisper_full` returns status 7 while a
segment text and a working allocator are available. -/
def failOracle : TranscribeOracle :=
  { fullStatus := 7
    segTexts := [some ("hi".data)]
    allocOk := true }

/-! ## Helper lemmas -/

/-- The boolean leading-whitespace test agrees with the propositional
disjunction the C condition writes. -/
theorem isLeadWs_iff (c : Char) :
    isLeadWs c = true ↔ (c = spaceChar ∨ c = newlineChar ∨ c = tabChar) := by
  simp [isLeadWs, or_assoc]

/-- The `strcat` fold from any accumulator appends the joined texts. -/
theorem concatSegs_loop (segs : List (Option CStr)) :
    ∀ acc : CStr,
      segs.foldl
        (fun acc t =>
          match t with
          | none => acc
          | some s => acc ++ s)
        acc = acc ++ joinTexts segs := by
  induction segs with
  | nil => intro acc; simp [joinTexts]
  | cons t rest ih =>
    intro acc
    cases t with
    | none => simpa [joinTexts] using ih acc
    | some s => simp [joinTexts, ih (acc ++ s)]

/-- The concatenation pass produces exactly the texts joined in order. -/
theorem concatSegs_eq_joinTexts (segs : List (Option CStr)) :
    concatSegs segs = joinTexts segs := by
  simpa using concatSegs_loop segs []

/-- The length pass from any accumulator adds the joined texts' length. -/
theorem totalLen_loop (segs : List (Option CStr)) :
    ∀ n : Nat,
      segs.foldl
        (fun acc t =>
          match t with
          | none => acc
          | some s => acc + s.length)
        n = n + (joinTexts segs).length := by
  induction segs with
  | nil => intro n; simp [joinTexts]
  | cons t rest ih =>
    intro n
    cases t with
    | none => simpa [joinTexts] using ih n
    | some s => simp [joinTexts, ih (n + s.length), Nat.add_assoc]

/-- The precomputed buffer length is the joined texts' length. -/
theorem totalLen_eq_joinTexts_length (segs : List (Option CStr)) :
    totalLen segs = (joinTexts segs).length := by
  simpa using totalLen_loop segs 0

/-- The pointer-advancing trim loop of the source computes `dropWhile` of
the leading-whitespace test. -/
theorem trimLead_eq_dropWhile : ∀ l : CStr, trimLead l = l.dropWhile isLeadWs := by
  intro l
  induction l with
  | nil => rfl
  | cons c cs ih =>
    by_cases h : c = spaceChar ∨ c = newlineChar ∨ c = tabChar
    · rw [trimLead, if_pos h, ih, List.dropWhile_cons_of_pos ((isLeadWs_iff c).mpr h)]
    · rw [trimLead, if_neg h, List.dropWhile_cons_of_neg]
      simp only [isLeadWs_iff]
      exact h

/-- The head of `dropWhile p`, when present, fails `p`. -/
theorem head_dropWhile_false (p : Char → Bool) :
    ∀ l : CStr, ∀ c : Char, (l.dropWhile p).head? = some c → p c = false := by
  intro l
  induction l with
  | nil => intro c hc; simp [List.dropWhile] at hc
  | cons a as ih =>
    intro c hc
    by_cases hp : p a = true
    · rw [List.dropWhile_cons_of_pos hp] at hc
      exact ih c hc
    · rw [List.dropWhile_cons_of_neg (by simpa using hp)] at hc
      simp only [List.head?_cons, Option.some.injEq] at hc
      subst hc
      simpa using hp

/-! ## Claim theorems -/

/-- C2: for every engine-default record, oracle, sample buffer and thread
count, calling transcribe with handle 0 returns the empty string; the call
returns a plain value on every input, never an error value or exception,
so the failure is visible only in the log. -/
theorem transcribe_null_context_returns_empty {α : Type}
    (defaults : WhisperFullParams) (o : TranscribeOracle) (audioData : List α)
    (numThreads : Int) :
    (nativeTranscribe defaults o 0 audioData numThreads).1 = "" := by
  rfl

/-- C4: initialize returns 0 exactly when the engine yields a null context;
on a successful load it returns the context pointer cast to an integer,
which is non-zero; the function returns a plain value on every input. -/
theorem init_zero_iff_load_failure (loaded : Option Ptr) (modelPath : String)
    (p : Ptr) :
    ((nativeInit loaded modelPath).1 = 0 ↔ loaded = none) ∧
      (nativeInit (some p) modelPath).1 = p.val ∧ p.val ≠ 0 := by
  refine ⟨?_, rfl, p.property⟩
  cases loaded with
  | none => simp [nativeInit]
  | some q => simp [nativeInit, q.property]

/-- C5: isLoaded is the pure predicate handle not equal to zero: it is a
function of the handle alone (it consults no state), it is false at 0 and
true at every non-zero handle, including a handle already released. -/
theorem isLoaded_iff_nonzero (h : Int) :
    (nativeIsLoaded h = true ↔ h ≠ 0) ∧ nativeIsLoaded 0 = false := by
  constructor
  · by_cases hz : h = 0 <;> simp [nativeIsLoaded, hz]
  · rfl

/-- C6: release of handle 0 leaves the live-context state unchanged, and
release of any non-zero handle removes that context from the live set; the
function is total, so no input makes it signal an error. -/
theorem release_zero_noop_and_nonzero_frees (live : Finset Int) (h : Int) :
    nativeRelease live 0 = live ∧ (h ≠ 0 → h ∉ nativeRelease live h) := by
  refine ⟨rfl, fun hz => ?_⟩
  rw [nativeRelease, if_neg hz]
  exact Finset.not_mem_erase h live

/-- C6 witness: releasing handle 1 from the live set containing 1 removes
it. -/
theorem release_zero_noop_and_nonzero_frees_witness :
    (1 : Int) ≠ 0 ∧ (1 : Int) ∉ nativeRelease {1} 1 :=
  ⟨by decide, (release_zero_noop_and_nonzero_frees {1} 1).2 (by decide)⟩

/-- C9: getSystemInfo passes the engine's static system-info string through
unmodified, and since that string is non-empty, the result is a non-empty
string; the function takes no input besides the engine's static data and
is total. -/
theorem getSystemInfo_passthrough_nonempty (info : EngineSystemInfo) :
    nativeGetSystemInfo info = String.mk info.text ∧
      nativeGetSystemInfo info ≠ "" := by
  refine ⟨rfl, fun hcontra => info.text_ne_nil ?_⟩
  simpa [nativeGetSystemInfo] using congrArg String.data hcontra

/-- C10: a NULL segment text is skipped identically by the length pass and
the concatenation pass, contributing the empty string to both, and the
precomputed buffer length always equals the length of the concatenated
string. -/
theorem null_segments_skipped_consistently (segs : List (Option CStr)) :
    totalLen segs = (concatSegs segs).length ∧
      concatSegs (none :: segs) = concatSegs segs ∧
      totalLen (none :: segs) = totalLen segs := by
  refine ⟨?_, rfl, rfl⟩
  rw [totalLen_eq_joinTexts_length, concatSegs_eq_joinTexts]

/-- C1 (amended): for every loaded (non-zero) handle on which the engine
reports success and the concatenation-buffer allocation succeeds,
transcribe returns exactly the segment texts joined in order with no
separator and every leading space, newline, or tab dropped from the
front; the result is a suffix of the concatenation (so trailing
whitespace is preserved byte-for-byte), and its first character, if any,
is not a leading-whitespace character. -/
theorem transcribe_success_concat_trim {α : Type} (defaults : WhisperFullParams)
    (o : TranscribeOracle) (h : Int) (audioData : List α) (numThreads : Int)
    (hh : h ≠ 0) (hs : o.fullStatus = 0) (ha : o.allocOk = true) :
    (nativeTranscribe defaults o h audioData numThreads).1 =
        String.mk ((joinTexts o.segTexts).dropWhile isLeadWs) ∧
      (joinTexts o.segTexts).dropWhile isLeadWs <:+ joinTexts o.segTexts ∧
      ∀ c : Char,
        ((nativeTranscribe defaults o h audioData numThreads).1).data.head? =
            some c →
          isLeadWs c = false := by
  have hres : (nativeTranscribe defaults o h audioData numThreads).1 =
      String.mk ((joinTexts o.segTexts).dropWhile isLeadWs) := by
    simp only [nativeTranscribe, if_neg hh]
    simp [hs, ha, trimLead_eq_dropWhile, concatSegs_eq_joinTexts]
  refine ⟨hres, List.dropWhile_suffix _, fun c hc => ?_⟩
  rw [hres] at hc
  exact head_dropWhile_false isLeadWs (joinTexts o.segTexts) c hc

/-- C1 witness: a successful run over two segments with leading and
trailing whitespace, at handle 1, one thread, an empty sample buffer. -/
theorem transcribe_success_concat_trim_witness :
    ((1 : Int) ≠ 0 ∧ sampleOracle.fullStatus = 0 ∧ sampleOracle.allocOk = true) ∧
      ((nativeTranscribe arbitraryDefaults sampleOracle 1 ([] : List Nat) 1).1 =
          String.mk ((joinTexts sampleOracle.segTexts).dropWhile isLeadWs) ∧
        (joinTexts sampleOracle.segTexts).dropWhile isLeadWs <:+
          joinTexts sampleOracle.segTexts ∧
        ∀ c : Char,
          ((nativeTranscribe arbitraryDefaults sampleOracle 1
                ([] : List Nat) 1).1).data.head? = some c →
            isLeadWs c = false) :=
  ⟨⟨by decide, rfl, rfl⟩,
    transcribe_success_concat_trim arbitraryDefaults sampleOracle 1 [] 1
      (by decide) rfl rfl⟩

/-- C1 counterexample: the claim as frozen quantifies over every run on
which the engine reports success, but if the `malloc` of the concatenation
buffer fails, a successful run with segment text "hi" yields the empty
string, not the trimmed concatenation. -/
theorem transcribe_success_concat_trim_cex :
    (nativeTranscribe arbitraryDefaults
          { fullStatus := 0, segTexts := [some ("hi".data)], allocOk := false }
          1 ([] : List Nat) 1).1 ≠
      String.mk ((joinTexts [some ("hi".data)]).dropWhile isLeadWs) := by
  decide

/-- C3: for every loaded (non-zero) handle, a non-zero engine status or a
failed concatenation-buffer allocation makes transcribe return the empty
string, a normal value; a successful run with no segments (silence)
returns the same empty string, so the failure is indistinguishable from
transcribed silence at the return-value level. -/
theorem transcribe_failure_returns_empty {α : Type}
    (defaults : WhisperFullParams) (o : TranscribeOracle) (h : Int)
    (audioData : List α) (numThreads : Int) (hh : h ≠ 0)
    (hfail : o.fullStatus ≠ 0 ∨ o.allocOk = false) :
    (nativeTranscribe defaults o h audioData numThreads).1 = "" ∧
      (nativeTranscribe defaults
          { fullStatus := 0, segTexts := [], allocOk := true } h audioData
          numThreads).1 = "" := by
  constructor
  · simp only [nativeTranscribe, if_neg hh]
    by_cases hs : o.fullStatus ≠ 0
    · rw [if_pos hs]
    · rw [if_neg hs]
      rcases hfail with hf | hf
      · exact absurd hf hs
      · rw [if_neg (by simp [hf])]
  · simp only [nativeTranscribe, if_neg hh]
    simp [concatSegs, trimLead]

/-- C3 witness: at handle 1, status 7 from the engine yields the empty
string, and so does a successful silent run. -/
theorem transcribe_failure_returns_empty_witness :
    ((1 : Int) ≠ 0 ∧ (failOracle.fullStatus ≠ 0 ∨ failOracle.allocOk = false)) ∧
      (nativeTranscribe arbitraryDefaults failOracle 1 ([] : List Nat) 1).1 = "" ∧
      (nativeTranscribe arbitraryDefaults
          { fullStatus := 0, segTexts := [], allocOk := true } 1
          ([] : List Nat) 1).1 = "" :=
  ⟨⟨by decide, by decide⟩,
    transcribe_failure_returns_empty arbitraryDefaults failOracle 1 [] 1
      (by decide) (by decide)⟩

/-- C7: on every call with a non-zero handle the engine sees exactly two
invocations, in order: one timing reset, then one `whisper_full` over the
whole sample buffer with its full length; and the parameter record built
for that call is the fixed record of the source — greedy sampling,
language "en", translation and context carry-over and all printing off,
single-segment mode and blank/non-speech suppression on, zero offset —
with the caller's thread count as its only varying field. -/
theorem transcribe_fixed_params_single_full_call {α : Type}
    (defaults : WhisperFullParams) (o : TranscribeOracle) (h : Int)
    (audioData : List α) (numThreads : Int) (hh : h ≠ 0) :
    engineEvents (nativeTranscribe defaults o h audioData numThreads).2 =
        [JEvent.resetTimings,
         JEvent.whisperFull (transcribeParams defaults numThreads) audioData
           audioData.length] ∧
      transcribeParams defaults numThreads =
        { strategy := WhisperSamplingStrategy.greedy
          print_realtime := false
          print_progress := false
          print_timestamps := false
          print_special := false
          translate := false
          language := "en"
          n_threads := numThreads
          offset_ms := 0
          no_context := true
          single_segment := true
          suppress_blank := true
          suppress_nst := true } := by
  constructor
  · simp only [nativeTranscribe, if_neg hh]
    by_cases hs : o.fullStatus ≠ 0
    · rw [if_pos hs]
      simp [engineEvents, isEngineEvent]
    · rw [if_neg hs]
      by_cases ha : o.allocOk
      · rw [if_pos ha]
        simp [engineEvents, isEngineEvent]
      · rw [if_neg ha]
        simp [engineEvents, isEngineEvent]
  · rfl

/-- C7 witness: at handle 1 with a three-sample buffer and three threads,
the engine trace is the reset followed by one full call, and the record is
the fixed one with thread count 3. -/
theorem transcribe_fixed_params_single_full_call_witness :
    (1 : Int) ≠ 0 ∧
      (engineEvents (nativeTranscribe arbitraryDefaults failOracle 1
            ([5, 6, 7] : List Nat) 3).2 =
          [JEvent.resetTimings,
           JEvent.whisperFull (transcribeParams arbitraryDefaults 3)
             [5, 6, 7] ([5, 6, 7] : List Nat).length] ∧
        transcribeParams arbitraryDefaults 3 =
          { strategy := WhisperSamplingStrategy.greedy
            print_realtime := false
            print_progress := false
            print_timestamps := false
            print_special := false
            translate := false
            language := "en"
            n_threads := 3
            offset_ms := 0
            no_context := true
            single_segment := true
            suppress_blank := true
            suppress_nst := true }) :=
  ⟨by decide,
    transcribe_fixed_params_single_full_call arbitraryDefaults failOracle 1
      [5, 6, 7] 3 (by decide)⟩

/-- C8: on every exit path of initialize and of transcribe — null handle,
engine failure, allocation failure, or success — the set of outstanding
acquisitions (borrowed model-path characters, borrowed float elements,
heap concatenation buffer) is empty at the return point. -/
theorem all_acquisitions_released_on_return {α : Type} (loaded : Option Ptr)
    (modelPath : String) (defaults : WhisperFullParams) (o : TranscribeOracle)
    (h : Int) (audioData : List α) (numThreads : Int) :
    outstanding (nativeInit loaded modelPath).2 = [] ∧
      outstanding (nativeTranscribe defaults o h audioData numThreads).2 = [] := by
  constructor
  · cases loaded <;> rfl
  · by_cases hh : h = 0
    · subst hh; rfl
    · simp only [nativeTranscribe, if_neg hh]
      by_cases hs : o.fullStatus ≠ 0
      · rw [if_pos hs]; rfl
      · rw [if_neg hs]
        by_cases ha : o.allocOk
        · rw [if_pos ha]; rfl
        · rw [if_neg ha]; rfl

end WhisperKey
